import Mathlib

/-!
Verification development for the localtunnel client (TypeScript).
The definitions below are a shallow embedding of:
  - src/lib/HeaderHostTransformer.ts  (the Host Rewriter)
  - src/lib/TunnelCluster.ts          (the connection pool)
  - src/lib/Tunnel.ts                 (the session manager: handshake, token, lifecycle)
Strings are modelled as Lean `String` / `List Char`; Node Buffers as `List Nat`;
JavaScript `undefined`-able fields as `Option`; machine time (`Date.now()`) as
`Nat` milliseconds.  Event-driven code is modelled as explicit state passing over
a script of externally-observed outcomes (HTTP attempt results, local dial
outcomes), which is faithful to the single-threaded event-loop semantics.
-/

namespace Localtunnel

/-- JavaScript truthiness for a `string | undefined` value: `undefined` and the
empty string are falsy, every other string is truthy. -/
def jsTruthyStr : Option String → Bool
  | none => false
  | some s => !(s.isEmpty)

/-- JavaScript `a || b` on `string | undefined` values. -/
def jsOrStr (a b : Option String) : Option String :=
  if jsTruthyStr a then a else b

/-- JavaScript `n || d` on a `number | undefined` value: `undefined` and `0` are
falsy (`NaN` is not modelled), every other number is truthy and kept. -/
def jsOrNum (o : Option Int) (d : Int) : Int :=
  match o with
  | none => d
  | some n => if n = 0 then d else n

/-- Models `new URL(s).hostname` for the URL shapes used by the client
(`scheme://host[:port][/path]`): drop the scheme separator, then take the
authority up to the first `/`, `:`, `?` or `#`. -/
def urlHostname (s : String) : String :=
  let rest := match s.splitOn "://" with
    | _ :: r :: _ => r
    | _ => s
  rest.takeWhile (fun c => c ≠ '/' && c ≠ ':' && c ≠ '?' && c ≠ '#')

/-! ## Host Rewriter (src/lib/HeaderHostTransformer.ts) -/

/-- JavaScript regex `\s` restricted to its ASCII members (space, tab, newline,
vertical tab, form feed, carriage return); `\S` is its negation. -/
def isWS (c : Char) : Bool :=
  c = ' ' || c = '\t' || c = '\n' || c = '\r' || c = Char.ofNat 11 || c = Char.ofNat 12

/-- One attempted match of the regex `(\r\n[Hh]ost: )\S+` at the head of the
data: on success returns the captured group `$1` (the literal eight characters,
preserving the `H`/`h` that actually occurred), the matched `\S+` value, and the
remainder of the data after the value. -/
def matchAt : List Char → Option (List Char × List Char × List Char)
  | c1 :: c2 :: c3 :: c4 :: c5 :: c6 :: c7 :: c8 :: rest =>
    if c1 = '\r' ∧ c2 = '\n' ∧ (c3 = 'H' ∨ c3 = 'h') ∧ c4 = 'o' ∧ c5 = 's' ∧ c6 = 't'
        ∧ c7 = ':' ∧ c8 = ' ' then
      let v := rest.takeWhile (fun x => !(isWS x))
      if v = [] then none
      else some ([c1, c2, c3, c4, c5, c6, c7, c8], v, rest.dropWhile (fun x => !(isWS x)))
    else none
  | _ => none

/-- Whether the regex matches anywhere in the data. -/
def hasMatch : List Char → Bool
  | [] => false
  | c :: rest => (matchAt (c :: rest)).isSome || hasMatch rest

/-- `data.replace(/(\r\n[Hh]ost: )\S+/, (m, g1) => g1 + host)`: replace the
first match only (the regex has no `g` flag); the returned boolean records
whether the replacement callback ran (it sets `this.replaced = true`). -/
def replaceScan (host : List Char) : List Char → List Char × Bool
  | [] => ([], false)
  | c :: rest =>
    match matchAt (c :: rest) with
    | some (cap, _, tl) => (cap ++ host ++ tl, true)
    | none =>
      let r := replaceScan host rest
      (c :: r.1, r.2)

/-- State of one `HeaderHostTransformer` stream: the configured hostname and the
"already replaced" flag. -/
structure HeaderHostTransformer where
  host : List Char
  replaced : Bool
deriving DecidableEq, Repr

/-- `new HeaderHostTransformer({ host })`: `this.host = opts.host || 'localhost'`,
`this.replaced = false`. -/
def mkHeaderHostTransformer (h : Option String) : HeaderHostTransformer :=
  { host := (if jsTruthyStr h then h.getD "" else "localhost").data, replaced := false }

/-- `_transform(data, encoding, callback)`: once replaced the stream is a pure
passthrough; before that, attempt a single regex replacement on the chunk. -/
def transformChunk (t : HeaderHostTransformer) (data : List Char) :
    List Char × HeaderHostTransformer :=
  if t.replaced then (data, t)
  else
    let r := replaceScan t.host data
    (r.1, { t with replaced := r.2 })

/-- Run the transform stream over a list of chunks, threading its state. -/
def transformAll (t : HeaderHostTransformer) : List (List Char) → List (List Char)
  | [] => []
  | d :: ds => (transformChunk t d).1 :: transformAll (transformChunk t d).2 ds

/-! ## Connection pool (src/lib/TunnelCluster.ts) -/

/-- `TunnelClusterOptions` from src/lib/TunnelCluster.ts. -/
structure TunnelClusterOptions where
  remote_host : Option String
  remote_ip : Option String
  remote_port : Option Int
  local_host : Option String
  local_hostname : Option String
  local_port : Option Int
  local_https : Option String
  allow_invalid_cert : Bool
  local_cert : Option String
  local_key : Option String
  local_ca : Option String
deriving DecidableEq, Repr

/-- `LocalCertOpts` from src/lib/TunnelCluster.ts: every field is optional, so a
plain `{}` object is the value with all fields absent. -/
structure LocalCertOpts where
  rejectUnauthorized : Option Bool
  cert : Option (List Nat)
  key : Option (List Nat)
  ca : Option (List (List Nat))
deriving DecidableEq, Repr

/-- The empty object `{}`. -/
def emptyCertOpts : LocalCertOpts := ⟨none, none, none, none⟩

/-- The body of the `if (!this.certOpts)` branch of `getLocalCertOpts`:
`allow_invalid_cert ? { rejectUnauthorized: false } : { cert, key, ca }`, where
`cert`/`key` are read from the configured paths and `ca` is wrapped in a
one-element array when a CA path is configured.  `readFile` stands for
`fs.readFile` (path to byte contents). -/
def resolveCertOpts (o : TunnelClusterOptions) (readFile : String → List Nat) :
    LocalCertOpts :=
  if o.allow_invalid_cert then { emptyCertOpts with rejectUnauthorized := some false }
  else
    { rejectUnauthorized := none
      cert := some (readFile (o.local_cert.getD ""))
      key := some (readFile (o.local_key.getD ""))
      ca := if jsTruthyStr o.local_ca then some [readFile (o.local_ca.getD "")] else none }

/-- The field initializer `private certOpts: LocalCertOpts = {}`: the field
holds an object (the empty object), not `undefined`.  `none` here models the
JavaScript `undefined`/`null` (falsy) case; `some o` models holding object `o`
(always truthy in JavaScript, even for `{}`). -/
def initialCertOpts : Option LocalCertOpts := some emptyCertOpts

/-- `getLocalCertOpts()`: `if (!this.certOpts) { this.certOpts = ... } return
this.certOpts`.  The guard `!this.certOpts` is false for any object held in the
field, including `{}`.  Returns the result and the new field value. -/
def getLocalCertOpts (o : TunnelClusterOptions) (readFile : String → List Nat)
    (certOpts : Option LocalCertOpts) : LocalCertOpts × Option LocalCertOpts :=
  match certOpts with
  | some c => (c, some c)
  | none =>
    let c := resolveCertOpts o readFile
    (c, some c)

/-- Which stream is spliced into the local socket on local dial success: the raw
relay socket, or the relay socket piped through a `HeaderHostTransformer`. -/
inductive StreamChoice where
  | raw
  | transformed (t : HeaderHostTransformer)
deriving DecidableEq, Repr

/-- The stream selection made in `open()`/`connLocal`:
`localHostname = opt.local_hostname || opt.local_host`; if truthy, the relay
stream is piped through `new HeaderHostTransformer({ host: localHostname })`,
otherwise the raw relay stream is used. -/
def streamForLocal (o : TunnelClusterOptions) : StreamChoice :=
  let localHostname := jsOrStr o.local_hostname o.local_host
  if jsTruthyStr localHostname then
    StreamChoice.transformed (mkHeaderHostTransformer localHostname)
  else StreamChoice.raw

/-- Outcome of one local dial attempt, as observed by the event handlers of
`connLocal`: either the local socket errors with a code, or it connects. -/
inductive LocalOutcome where
  | fail (code : String)
  | connect
deriving DecidableEq, Repr

/-- Observable state of one pooled connection (one `open()` call of
`TunnelCluster`): the relay socket's flags, the number of relay sockets dialed
(1 after `open()`; `connLocal` must never change it), whether the
`remote.once('close', remoteClose)` listener is currently registered, whether
`dead` has been emitted, the scheduled local-dial retry delays (ms), and the
stream spliced into the local socket once relaying. -/
structure ConnState where
  remoteDestroyed : Bool
  remoteEnded : Bool
  remotePaused : Bool
  remoteConnectCount : Nat
  closeListenerActive : Bool
  deadEmitted : Bool
  retryDelays : List Nat
  relaying : Option StreamChoice
deriving DecidableEq, Repr

/-- The state of a pooled connection right after `remote.once('connect')` fired:
one relay socket dialed, nothing ended, no listener yet, nothing emitted. -/
def freshConn : ConnState :=
  { remoteDestroyed := false, remoteEnded := false, remotePaused := false
    remoteConnectCount := 1, closeListenerActive := false, deadEmitted := false
    retryDelays := [], relaying := none }

/-- `connLocal` from src/lib/TunnelCluster.ts, driven by a script of local dial
outcomes.  Per invocation: if the relay socket is destroyed, emit `dead` and
stop; otherwise pause the relay socket, dial the local service and register
`remote.once('close', remoteClose)`.  On a local socket error: `local.end()`,
remove the `remoteClose` listener, then either end the relay socket (codes
other than ECONNREFUSED/ECONNRESET) or schedule a retry of `connLocal` after a
fixed 1000 ms.  On local connect: resume the relay socket and splice the
selected stream with the local socket. -/
def connLocal (o : TunnelClusterOptions) : List LocalOutcome → ConnState → ConnState
  | [], st =>
    if st.remoteDestroyed then { st with deadEmitted := true }
    else { st with remotePaused := true, closeListenerActive := true }
  | LocalOutcome.connect :: _, st =>
    if st.remoteDestroyed then { st with deadEmitted := true }
    else
      { st with remotePaused := false, closeListenerActive := true,
                relaying := some (streamForLocal o) }
  | LocalOutcome.fail code :: restOutcomes, st =>
    if st.remoteDestroyed then { st with deadEmitted := true }
    else
      if code ≠ "ECONNREFUSED" ∧ code ≠ "ECONNRESET" then
        { st with remotePaused := true, closeListenerActive := false,
                  remoteEnded := true }
      else
        connLocal o restOutcomes
          { st with remotePaused := true, closeListenerActive := false,
                    retryDelays := st.retryDelays ++ [1000] }

/-- What happens when the relay socket's `close` event eventually fires: the
`remoteClose` handler (emit `dead`, end the local socket) runs only if it is
still registered. -/
def onRemoteClose (st : ConnState) : ConnState :=
  if st.closeListenerActive then
    { st with deadEmitted := true, closeListenerActive := false }
  else st

/-! ## Session manager (src/lib/Tunnel.ts) -/

/-- `TunnelOptions` from src/lib/Tunnel.ts.  The constructor guarantees `host`
is set (defaulting to `https://localtunnel.me`), so it is modelled as a plain
string here. -/
structure TunnelOptions where
  host : String
  port : Option Int
  subdomain : Option String
  local_host : Option String
  local_hostname : Option String
  local_https : Option String
  local_cert : Option String
  local_key : Option String
  local_ca : Option String
  allow_invalid_cert : Bool
  secret : Option String
deriving DecidableEq, Repr

/-- `LTServerResponse`: the JSON body of a handshake response. -/
structure LTServerResponse where
  id : String
  port : Int
  max_conn_count : Option Int
  url : String
  message : Option String
  cached_url : Option String
deriving DecidableEq, Repr

/-- `TunnelInfo`: the assignment record built by `getInfo`. -/
structure TunnelInfo where
  name : String
  url : String
  cached_url : Option String
  max_conn : Int
  remote_host : String
  remote_port : Int
  local_port : Option Int
  local_host : Option String
  local_https : Option String
  local_cert : Option String
  local_key : Option String
  local_ca : Option String
  allow_invalid_cert : Bool
deriving DecidableEq, Repr

/-- `getInfo(body)` from src/lib/Tunnel.ts; `max_conn: max_conn_count || 1`. -/
def getInfo (opts : TunnelOptions) (body : LTServerResponse) : TunnelInfo :=
  { name := body.id
    url := body.url
    cached_url := body.cached_url
    max_conn := jsOrNum body.max_conn_count 1
    remote_host := urlHostname opts.host
    remote_port := body.port
    local_port := opts.port
    local_host := opts.local_host
    local_https := opts.local_https
    local_cert := opts.local_cert
    local_key := opts.local_key
    local_ca := opts.local_ca
    allow_invalid_cert := opts.allow_invalid_cert }

/-! ### Token issuance -/

/-- `const TOKEN_EXPIRES = 60 * 60` (seconds from now). -/
def TOKEN_EXPIRES : Nat := 60 * 60

/-- A token produced by `jwt.sign({ ...data, exp }, secret)`: the payload
entries, the `exp` claim (Unix seconds) and the signing secret. -/
structure SignedToken where
  payload : List (String × String)
  exp : Nat
  secret : String
deriving DecidableEq, Repr

/-- The session's token cache: the `this.token` field and the absolute fire
time (ms) of the pending `setTimeout` that resets it, if one is scheduled. -/
structure TokenState where
  token : Option SignedToken
  invalidateAt : Option Nat
deriving DecidableEq, Repr

/-- `getToken(secret, data)` evaluated at wall-clock time `nowMs`
(`Date.now()` in milliseconds): return the cached token if present; otherwise
sign a token with `exp = Math.floor(Date.now() / 1000) + TOKEN_EXPIRES`, cache
it, and schedule its invalidation `(TOKEN_EXPIRES - 10) * 1000` ms from now. -/
def getToken (nowMs : Nat) (secret : String) (data : List (String × String))
    (st : TokenState) : SignedToken × TokenState :=
  match st.token with
  | some t => (t, st)
  | none =>
    let t : SignedToken := { payload := data, exp := nowMs / 1000 + TOKEN_EXPIRES
                             secret := secret }
    (t, { token := some t, invalidateAt := some (nowMs + (TOKEN_EXPIRES - 10) * 1000) })

/-- The scheduled `setTimeout` callback: `this.token = undefined`. -/
def onInvalidate (st : TokenState) : TokenState := { st with token := none }

/-! ### Handshake loop (`init`) -/

/-- What one handshake HTTP attempt produced, as seen by the `try` block:
either an HTTP response (any status) or a network error (no response). -/
inductive Attempt where
  | response (status : Nat) (body : LTServerResponse)
  | networkError
deriving DecidableEq, Repr

/-- The observable outcome of one `init()` run: the returned assignment (or
`null`), the final retry counter, the backoff sleeps performed (ms, in order),
whether the fatal `unreachable` error was emitted, and whether the 401 warning
was logged. -/
structure InitOutcome where
  info : Option TunnelInfo
  retries : Nat
  waits : List ℚ
  errorEmitted : Bool
  warned : Bool
deriving DecidableEq, Repr

/-- `const waitFor = 1000` (ms). -/
def waitFor : ℚ := 1000

/-- `const maxRetries = 10`. -/
def maxRetries : Nat := 10

/-- The backoff computed after the `r`-th failure:
`waitFor * (retries * 1.5)` (exact in these ranges, so modelled in ℚ). -/
def waitMs (r : Nat) : ℚ := waitFor * (r * (3 / 2))

/-- Attempts on which the `catch` block takes the retry branch: anything that
throws and is not a 401 — network errors, non-2xx statuses other than 401
(axios rejects them, `err.response.status` is set), and 2xx statuses other
than 200 (the explicit `res.status !== 200` check throws a plain `Error`). -/
def retryable : Attempt → Bool
  | Attempt.networkError => true
  | Attempt.response s _ => !(s == 200) && !(s == 401)

/-- The `while (retry)` loop of `init()`, driven by the script of attempt
results.  A 200 response returns `getInfo(body)`.  A thrown error with
`err.response?.status === 401` logs a warning and returns `null` without
touching the retry counter.  Any other throw increments the counter; at
`maxRetries` the fatal error is emitted and the loop breaks (returning `null`),
otherwise the loop sleeps `waitFor * (retries * 1.5)` ms and retries.  (2xx
statuses other than 200 throw a plain `Error` with no `response` field, so they
also take the retry branch.)  `none` means the script ended before the loop
did. -/
def initLoop (opts : TunnelOptions) :
    List Attempt → Nat → List ℚ → Option InitOutcome
  | [], _, _ => none
  | Attempt.response s body :: rest, retries, waits =>
    if s = 200 then
      some ⟨some (getInfo opts body), retries, waits, false, false⟩
    else if s = 401 then
      some ⟨none, retries, waits, false, true⟩
    else
      if maxRetries ≤ retries + 1 then some ⟨none, retries + 1, waits, true, false⟩
      else initLoop opts rest (retries + 1) (waits ++ [waitMs (retries + 1)])
  | Attempt.networkError :: rest, retries, waits =>
    if maxRetries ≤ retries + 1 then some ⟨none, retries + 1, waits, true, false⟩
    else initLoop opts rest (retries + 1) (waits ++ [waitMs (retries + 1)])

/-! ### Session lifecycle (`open`, `establish`, `close`) -/

/-- The number of `tunnelCluster.open()` calls made by the
`for (let count = 0; count < info.max_conn; ++count)` loop of `establish`:
zero when `max_conn` is not positive. -/
def establishOpens (info : TunnelInfo) : Nat := info.max_conn.toNat

/-- Observable session state: the `closed` flag, the identity fields, whether a
pool was configured and started (`establish` ran, with its info), how many pool
connections `establish` opened, and whether an `error` event was emitted. -/
structure SessionState where
  closed : Bool
  clientId : Option String
  url : Option String
  cachedUrl : Option String
  poolInfo : Option TunnelInfo
  poolOpens : Nat
  errorEmitted : Bool
deriving DecidableEq, Repr

/-- The state of a freshly constructed `Tunnel`. -/
def freshSession : SessionState :=
  { closed := false, clientId := none, url := none, cachedUrl := none
    poolInfo := none, poolOpens := 0, errorEmitted := false }

/-- `open()` from src/lib/Tunnel.ts: run `init()`; if it returned `null`, set
`closed = true` and return (no pool is started and no exception escapes);
otherwise populate `clientId`, `url`, `cachedUrl` (only when truthy), run
`establish(info)` (which starts `max_conn` pool connections), and finally set
`closed = false`. -/
def openTunnel (opts : TunnelOptions) (attempts : List Attempt) (s : SessionState) :
    Option SessionState :=
  (initLoop opts attempts 0 []).map fun out =>
    match out.info with
    | none => { s with closed := true, errorEmitted := s.errorEmitted || out.errorEmitted }
    | some info =>
      { s with
        clientId := some info.name
        url := some info.url
        cachedUrl := if jsTruthyStr info.cached_url then info.cached_url else s.cachedUrl
        poolInfo := some info
        poolOpens := establishOpens info
        closed := false
        errorEmitted := s.errorEmitted || out.errorEmitted }

/-- The mutable state touched by the `dead` handler installed by `establish`. -/
structure EstablishState where
  closed : Bool
  tunnelCount : Int
  clusterOpens : Nat
deriving DecidableEq, Repr

/-- The `tunnelCluster.on('dead', ...)` handler: decrement the live count; if
the session is closed, return; otherwise call `tunnelCluster.open()`. -/
def onDead (s : EstablishState) : EstablishState :=
  let s1 := { s with tunnelCount := s.tunnelCount - 1 }
  if s1.closed then s1 else { s1 with clusterOpens := s1.clusterOpens + 1 }

/-- `close()`: set `closed = true` (the kill signal and close event do not
affect the fields modelled here). -/
def closeSession (s : EstablishState) : EstablishState := { s with closed := true }

/-! ## Concrete inputs used by witnesses and counterexamples -/

/-- A concrete `TunnelOptions` value. -/
def optsA : TunnelOptions :=
  { host := "https://localtunnel.me", port := some 3000, subdomain := none
    local_host := none, local_hostname := none, local_https := none
    local_cert := none, local_key := none, local_ca := none
    allow_invalid_cert := false, secret := none }

/-- A concrete successful assignment body. -/
def bodyA : LTServerResponse :=
  { id := "abc", port := 9000, max_conn_count := some 2
    url := "https://abc.example.com", message := none, cached_url := none }

/-- A concrete assignment body with a negative `max_conn_count`. -/
def bodyNeg : LTServerResponse :=
  { id := "abc", port := 9000, max_conn_count := some (-1)
    url := "https://abc.example.com", message := none, cached_url := none }

/-- A concrete `TunnelClusterOptions` value with a hostname override. -/
def clusterOptsA : TunnelClusterOptions :=
  { remote_host := some "relay.example", remote_ip := none, remote_port := some 9000
    local_host := none, local_hostname := some "target.internal", local_port := some 3000
    local_https := none, allow_invalid_cert := false
    local_cert := none, local_key := none, local_ca := none }

/-! ## Helper lemmas -/

/-- Unfolding `connLocal` on a successful local dial. -/
lemma connLocal_connect (o : TunnelClusterOptions) (rest : List LocalOutcome)
    (st : ConnState) (hd : st.remoteDestroyed = false) :
    connLocal o (LocalOutcome.connect :: rest) st =
      { st with remotePaused := false, closeListenerActive := true,
                relaying := some (streamForLocal o) } := by
  simp [connLocal, hd]

/-- Unfolding `connLocal` on a refused/reset local dial: the retry branch. -/
lemma connLocal_retry (o : TunnelClusterOptions) (code : String)
    (rest : List LocalOutcome) (st : ConnState) (hd : st.remoteDestroyed = false)
    (hcode : code = "ECONNREFUSED" ∨ code = "ECONNRESET") :
    connLocal o (LocalOutcome.fail code :: rest) st =
      connLocal o rest
        { st with remotePaused := true, closeListenerActive := false,
                  retryDelays := st.retryDelays ++ [1000] } := by
  have hneg : ¬ (code ≠ "ECONNREFUSED" ∧ code ≠ "ECONNRESET") := by
    rcases hcode with h | h <;> simp [h]
  simp only [connLocal]
  simp [hd, hneg]

/-- Unfolding `connLocal` on a fatal local dial error. -/
lemma connLocal_fatal (o : TunnelClusterOptions) (code : String)
    (rest : List LocalOutcome) (st : ConnState) (hd : st.remoteDestroyed = false)
    (h1 : code ≠ "ECONNREFUSED") (h2 : code ≠ "ECONNRESET") :
    connLocal o (LocalOutcome.fail code :: rest) st =
      { st with remotePaused := true, closeListenerActive := false,
                remoteEnded := true } := by
  simp only [connLocal]
  simp [hd, h1, h2]

/-- A successful `matchAt` decomposes its input: the data is the captured
literal, then the matched value, then the remainder. -/
lemma matchAt_decomp (l cap v tl : List Char) (h : matchAt l = some (cap, v, tl)) :
    l = cap ++ v ++ tl := by
  rcases l with _ | ⟨c1, _ | ⟨c2, _ | ⟨c3, _ | ⟨c4, _ | ⟨c5, _ | ⟨c6, _ | ⟨c7, _ | ⟨c8, rest⟩⟩⟩⟩⟩⟩⟩⟩
  · simp [matchAt] at h
  · simp [matchAt] at h
  · simp [matchAt] at h
  · simp [matchAt] at h
  · simp [matchAt] at h
  · simp [matchAt] at h
  · simp [matchAt] at h
  · simp [matchAt] at h
  · simp only [matchAt] at h
    split_ifs at h with hcond hv
    · injection h with h'
      injection h' with hcap h'
      injection h' with hval htl
      subst hcap; subst hval; subst htl
      simp [List.takeWhile_append_dropWhile]

/-- A chunk with no match passes through `replaceScan` unchanged, without
setting the replaced flag. -/
lemma replaceScan_no_match (host : List Char) :
    ∀ d : List Char, hasMatch d = false → replaceScan host d = (d, false) := by
  intro d
  induction d with
  | nil => intro _; simp [replaceScan]
  | cons c rest ih =>
    intro h
    cases hm : matchAt (c :: rest) with
    | some val =>
      rw [hasMatch, hm] at h
      simp at h
    | none =>
      rw [hasMatch, hm] at h
      simp at h
      simp [replaceScan, hm, ih h]

/-- When the first match of a chunk starts right after the prefix `p` (no match
starts inside `p`), `replaceScan` keeps `p`, the captured literal, and the
remainder, and substitutes the configured host for the matched value. -/
lemma replaceScan_found (host : List Char) :
    ∀ (p rest cap v tl : List Char),
      matchAt rest = some (cap, v, tl) →
      (∀ j, j < p.length → matchAt ((p ++ rest).drop j) = none) →
      replaceScan host (p ++ rest) = (p ++ (cap ++ host ++ tl), true) := by
  intro p
  induction p with
  | nil =>
    intro rest cap v tl hm _
    cases rest with
    | nil => simp [matchAt] at hm
    | cons c cs => simp [replaceScan, hm]
  | cons a p' ih =>
    intro rest cap v tl hm hfirst
    have h0 : matchAt (a :: (p' ++ rest)) = none := by
      have := hfirst 0 (by simp)
      simpa using this
    have hrec := ih rest cap v tl hm (fun j hj => by
      have := hfirst (j + 1) (by simp; omega)
      simpa [List.drop_succ_cons] using this)
    simp [replaceScan, h0, hrec]

/-- Once the replaced flag is set, the transform is a pure passthrough. -/
lemma transformAll_replaced (t : HeaderHostTransformer) (h : t.replaced = true) :
    ∀ ds, transformAll t ds = ds := by
  intro ds
  induction ds with
  | nil => simp [transformAll]
  | cons d ds ih =>
    have hc : transformChunk t d = (d, t) := by simp [transformChunk, h]
    simp [transformAll, hc, ih]

/-- Chunks without a match pass through unchanged and leave the transformer in
its initial (not-yet-replaced) state. -/
lemma transformAll_clean (host : List Char) (pre X : List (List Char))
    (h : ∀ c ∈ pre, hasMatch c = false) :
    transformAll ⟨host, false⟩ (pre ++ X) = pre ++ transformAll ⟨host, false⟩ X := by
  induction pre with
  | nil => simp
  | cons d pre' ih =>
    have hd : hasMatch d = false := h d (by simp)
    have h' : ∀ c ∈ pre', hasMatch c = false := fun c hc => h c (by simp [hc])
    have hc : transformChunk ⟨host, false⟩ d = (d, ⟨host, false⟩) := by
      simp [transformChunk, replaceScan_no_match host d hd]
    simp [transformAll, hc, ih h']

/-- Unfolding one successful (200) handshake attempt. -/
lemma initLoop_step_ok (opts : TunnelOptions) (body : LTServerResponse)
    (rest : List Attempt) (r : Nat) (ws : List ℚ) :
    initLoop opts (Attempt.response 200 body :: rest) r ws =
      some ⟨some (getInfo opts body), r, ws, false, false⟩ := by
  simp [initLoop]

/-- Unfolding one retryable handshake failure below the retry bound. -/
lemma initLoop_step_retry (opts : TunnelOptions) (a : Attempt) (rest : List Attempt)
    (r : Nat) (ws : List ℚ) (ha : retryable a = true) (h : r + 1 < maxRetries) :
    initLoop opts (a :: rest) r ws =
      initLoop opts rest (r + 1) (ws ++ [waitMs (r + 1)]) := by
  cases a with
  | networkError => simp [initLoop, Nat.not_le.mpr h]
  | response s body =>
    simp only [retryable, Bool.and_eq_true, Bool.not_eq_true'] at ha
    have h200 : ¬ s = 200 := by simpa using ha.1
    have h401 : ¬ s = 401 := by simpa using ha.2
    simp [initLoop, h200, h401, Nat.not_le.mpr h]

/-- Unfolding one retryable handshake failure at the retry bound: the fatal
`unreachable` error is emitted and the loop breaks. -/
lemma initLoop_step_exhaust (opts : TunnelOptions) (a : Attempt) (rest : List Attempt)
    (r : Nat) (ws : List ℚ) (ha : retryable a = true) (h : maxRetries ≤ r + 1) :
    initLoop opts (a :: rest) r ws = some ⟨none, r + 1, ws, true, false⟩ := by
  cases a with
  | networkError => simp [initLoop, h]
  | response s body =>
    simp only [retryable, Bool.and_eq_true, Bool.not_eq_true'] at ha
    have h200 : ¬ s = 200 := by simpa using ha.1
    have h401 : ¬ s = 401 := by simpa using ha.2
    simp [initLoop, h200, h401, h]

/-- Running the handshake loop through a block of retryable failures: the
counter advances by the block length and the backoffs
`waitMs (r+1), …, waitMs (r+n)` are slept in order. -/
lemma initLoop_retry_steps (opts : TunnelOptions) (es : List Attempt) :
    ∀ (tail : List Attempt) (r : Nat) (ws : List ℚ),
      (∀ a ∈ es, retryable a = true) → r + es.length < maxRetries →
      initLoop opts (es ++ tail) r ws =
        initLoop opts tail (r + es.length)
          (ws ++ (List.range es.length).map (fun i => waitMs (r + 1 + i))) := by
  induction es with
  | nil => intro tail r ws _ _; simp
  | cons a as ih =>
    intro tail r ws hre hlt
    have ha : retryable a = true := hre a (by simp)
    have has : ∀ x ∈ as, retryable x = true := fun x hx => hre x (by simp [hx])
    have hlt1 : r + 1 < maxRetries := by
      simp only [List.length_cons] at hlt; omega
    rw [List.cons_append, initLoop_step_retry opts a (as ++ tail) r ws ha hlt1,
      ih tail (r + 1) (ws ++ [waitMs (r + 1)]) has
        (by simp only [List.length_cons] at hlt; omega)]
    have hfun : (fun i => waitMs (r + 1 + 1 + i)) = ((fun i => waitMs (r + 1 + i)) ∘ Nat.succ) :=
      funext fun i => congrArg waitMs (by omega)
    congr 1
    · simp only [List.length_cons]; omega
    · rw [List.append_assoc]
      congr 1
      simp only [List.length_cons]
      rw [List.range_succ_eq_map, List.map_cons, List.map_map, List.singleton_append, hfun]

/-- The `dead` handler leaves a closed session's pool untouched. -/
lemma onDead_closed (e : EstablishState) (h : e.closed = true) :
    (onDead e).clusterOpens = e.clusterOpens ∧ (onDead e).closed = true := by
  simp [onDead, h]

/-! ## Claims -/

/-- Claim C1 (code bug): `getLocalCertOpts` is supposed to resolve the local
certificate trust material lazily once per pool, returning
`{ rejectUnauthorized: false }` when `allow_invalid_cert` is set and the loaded
cert/key/CA otherwise.  In the code, `certOpts` is initialized to `{}`, which is
a truthy object, so the `if (!this.certOpts)` branch is dead: from the initial
state the function always returns the empty object (for every configuration,
including `allow_invalid_cert`), never the value the dead branch would have
computed. -/
theorem C1_cert_opts_never_resolved (o : TunnelClusterOptions)
    (readFile : String → List Nat) :
    (getLocalCertOpts o readFile initialCertOpts).1 = emptyCertOpts
    ∧ (getLocalCertOpts o readFile initialCertOpts).2 = initialCertOpts
    ∧ resolveCertOpts { o with allow_invalid_cert := true } readFile
        = { emptyCertOpts with rejectUnauthorized := some false }
    ∧ ({ emptyCertOpts with rejectUnauthorized := some false } : LocalCertOpts)
        ≠ emptyCertOpts := by
  refine ⟨rfl, rfl, ?_, by decide⟩
  simp [resolveCertOpts]

/-- Claim C2: a handshake whose request receives an HTTP 401 response aborts
the loop without any retry (the retry counter stays 0, no backoff sleep, no
`error` emitted, only the warning is logged), and `open()` then sets
`closed = true` and returns normally (the model is a total function — no
exception propagates). -/
theorem C2_handshake_401_terminal (opts : TunnelOptions) (body : LTServerResponse)
    (rest : List Attempt) (s : SessionState) :
    initLoop opts (Attempt.response 401 body :: rest) 0 []
      = some ⟨none, 0, [], false, true⟩
    ∧ openTunnel opts (Attempt.response 401 body :: rest) s
        = some { s with closed := true } := by
  constructor
  · simp [initLoop]
  · simp [openTunnel, initLoop]

/-- Claim C7: once `close()` has set `closed = true`, any number of `dead`
events leaves the number of `tunnelCluster.open()` calls unchanged (the handler
returns before opening a replacement), and the session stays closed. -/
theorem C7_closed_dead_no_reopen (s : EstablishState) (n : Nat) :
    (onDead^[n] (closeSession s)).clusterOpens = s.clusterOpens
    ∧ (onDead^[n] (closeSession s)).closed = true := by
  induction n with
  | zero => simp [closeSession]
  | succ n ih =>
    rw [Function.iterate_succ_apply']
    have h1 := onDead_closed _ ih.2
    exact ⟨h1.1.trans ih.1, h1.2⟩

/-- Claim C8, counterexample: at issuance time 500 ms, the scheduled
invalidation fires at 3 590 500 ms, but `expiry − 10 s` is 3 590 000 ms — the
invalidation is not scheduled at `expiry − 10 s` as the claim states, because
`exp` is computed from the floored second while the timer runs from the exact
millisecond. -/
theorem C8_counterexample :
    (getToken 500 "secret" [] ⟨none, none⟩).2.invalidateAt = some 3590500
    ∧ (getToken 500 "secret" [] ⟨none, none⟩).1.exp * 1000 - 10000 = 3590000
    ∧ (getToken 500 "secret" [] ⟨none, none⟩).2.invalidateAt
        ≠ some ((getToken 500 "secret" [] ⟨none, none⟩).1.exp * 1000 - 10000) := by
  exact ⟨rfl, rfl, by decide⟩

/-- Claim C8, amended: `getToken` returns the cached token while one exists;
otherwise it signs a token whose `exp` claim is `TOKEN_EXPIRES` (3600) seconds
from the floored issuance second, caches it (so at most one token is cached per
session), and schedules the cache invalidation exactly
`(TOKEN_EXPIRES − 10) * 1000` ms after issuance — which lies strictly more than
9 s and at most 10 s before the `exp` claim, and exactly 10 s before it when
issuance falls on a whole second. -/
theorem C8_token_cache_and_invalidation (nowMs : Nat) (secret : String)
    (data : List (String × String)) :
    (∀ (t : SignedToken) (iv : Option Nat),
        getToken nowMs secret data ⟨some t, iv⟩ = (t, ⟨some t, iv⟩))
    ∧ (getToken nowMs secret data ⟨none, none⟩).1.exp = nowMs / 1000 + TOKEN_EXPIRES
    ∧ (getToken nowMs secret data ⟨none, none⟩).2.invalidateAt
        = some (nowMs + (TOKEN_EXPIRES - 10) * 1000)
    ∧ (getToken nowMs secret data ⟨none, none⟩).2.token
        = some (getToken nowMs secret data ⟨none, none⟩).1
    ∧ nowMs + (TOKEN_EXPIRES - 10) * 1000 + 9000
        < (getToken nowMs secret data ⟨none, none⟩).1.exp * 1000
    ∧ (getToken nowMs secret data ⟨none, none⟩).1.exp * 1000
        ≤ nowMs + (TOKEN_EXPIRES - 10) * 1000 + 10000
    ∧ (nowMs % 1000 = 0 →
        (getToken nowMs secret data ⟨none, none⟩).1.exp * 1000
          = nowMs + (TOKEN_EXPIRES - 10) * 1000 + 10000) := by
  refine ⟨fun t iv => rfl, rfl, rfl, rfl, ?_, ?_, ?_⟩ <;>
    simp only [getToken, TOKEN_EXPIRES] <;> omega

/-- Witness for the amended C8 theorem at issuance time 2000 ms. -/
theorem C8_token_cache_and_invalidation_witness :
    2000 % 1000 = 0
    ∧ (getToken 2000 "s" [] ⟨none, none⟩).1.exp * 1000
        = 2000 + (TOKEN_EXPIRES - 10) * 1000 + 10000 :=
  ⟨by decide, (C8_token_cache_and_invalidation 2000 "s" []).2.2.2.2.2.2 (by decide)⟩

/-- Claim C10, counterexample: for an assignment body with
`max_conn_count = -1` (a number that is neither positive nor absent), the code
keeps `-1` (JavaScript `-1 || 1` is `-1`) instead of the claimed default `1`,
and `establish` then starts zero connections. -/
theorem C10_counterexample :
    (getInfo optsA bodyNeg).max_conn = -1
    ∧ (getInfo optsA bodyNeg).max_conn ≠ 1
    ∧ establishOpens (getInfo optsA bodyNeg) = 0 := by
  exact ⟨rfl, by decide, rfl⟩

/-- Claim C10, amended: `max_conn` equals `max_conn_count` whenever that field
is a nonzero number (including negative ones) and `1` when it is absent or `0`;
in particular `max_conn_count = 0` yields `max_conn = 1`.  A successfully
opened session therefore starts at least one connection whenever
`max_conn_count` is absent, zero, or positive. -/
theorem C10_max_conn_default (opts : TunnelOptions) (body : LTServerResponse) :
    (body.max_conn_count = none → (getInfo opts body).max_conn = 1)
    ∧ (body.max_conn_count = some 0 → (getInfo opts body).max_conn = 1)
    ∧ (∀ n : Int, body.max_conn_count = some n → n ≠ 0 →
        (getInfo opts body).max_conn = n)
    ∧ (∀ n : Int, body.max_conn_count = some n → 0 < n →
        establishOpens (getInfo opts body) = n.toNat
        ∧ 1 ≤ establishOpens (getInfo opts body))
    ∧ ((body.max_conn_count = none ∨ body.max_conn_count = some 0) →
        1 ≤ establishOpens (getInfo opts body)) := by
  refine ⟨?_, ?_, ?_, ?_, ?_⟩
  · intro h; simp [getInfo, jsOrNum, h]
  · intro h; simp [getInfo, jsOrNum, h]
  · intro n h hn; simp [getInfo, jsOrNum, h, hn]
  · intro n h hn
    have hn0 : ¬ n = 0 := by omega
    have hm : (getInfo opts body).max_conn = n := by simp [getInfo, jsOrNum, h, hn0]
    refine ⟨by simp [establishOpens, hm], ?_⟩
    simp [establishOpens, hm]
    omega
  · intro h
    rcases h with h | h <;> simp [establishOpens, getInfo, jsOrNum, h]

/-- Witness for the amended C10 theorem at `max_conn_count = 2`. -/
theorem C10_max_conn_default_witness :
    bodyA.max_conn_count = some 2
    ∧ (establishOpens (getInfo optsA bodyA) = (2 : Int).toNat
       ∧ 1 ≤ establishOpens (getInfo optsA bodyA)) :=
  ⟨by decide, (C10_max_conn_default optsA bodyA).2.2.2.1 2 (by decide) (by decide)⟩

/-- Claim C3: every handshake failure other than a 401 increments the retry
counter, and the wait slept before attempt n+1 is `1000 ms × n × 1.5` (linear
backoff: `waitMs n = waitFor * (n * 1.5)`).  A run of 9 retryable failures
followed by a 200 on the 10th attempt returns the assignment with the counter
at 9, no `error` emitted, and `open()` yields an Open session; a run of 10
retryable failures emits the fatal `unreachable` error after the counter
reaches 10 and `open()` closes the session without starting a pool. -/
theorem C3_handshake_backoff (opts : TunnelOptions) :
    (∀ (es : List Attempt) (body : LTServerResponse) (rest : List Attempt)
        (s : SessionState),
        es.length = 9 → (∀ a ∈ es, retryable a = true) →
        initLoop opts (es ++ Attempt.response 200 body :: rest) 0 [] =
          some ⟨some (getInfo opts body), 9,
                (List.range 9).map (fun i => waitMs (1 + i)), false, false⟩
        ∧ openTunnel opts (es ++ Attempt.response 200 body :: rest) s =
            some { s with clientId := some body.id, url := some body.url,
                          cachedUrl := if jsTruthyStr body.cached_url then body.cached_url
                                       else s.cachedUrl,
                          poolInfo := some (getInfo opts body),
                          poolOpens := establishOpens (getInfo opts body),
                          closed := false })
    ∧ (∀ (es : List Attempt) (rest : List Attempt) (s : SessionState),
        es.length = 10 → (∀ a ∈ es, retryable a = true) →
        initLoop opts (es ++ rest) 0 [] =
          some ⟨none, 10, (List.range 9).map (fun i => waitMs (1 + i)), true, false⟩
        ∧ openTunnel opts (es ++ rest) s
            = some { s with closed := true, errorEmitted := true }) := by
  constructor
  · intro es body rest s hlen hre
    have h1 : initLoop opts (es ++ Attempt.response 200 body :: rest) 0 [] =
        some ⟨some (getInfo opts body), 9,
              (List.range 9).map (fun i => waitMs (1 + i)), false, false⟩ := by
      rw [initLoop_retry_steps opts es (Attempt.response 200 body :: rest) 0 []
        hre (by rw [hlen]; decide), initLoop_step_ok]
      simp [hlen]
    refine ⟨h1, ?_⟩
    simp [openTunnel, h1, getInfo]
  · intro es rest s hlen hre
    obtain ⟨e, he⟩ := List.length_eq_one.mp
      (show (es.drop 9).length = 1 by rw [List.length_drop, hlen])
    have hsplit : es = es.take 9 ++ [e] := by rw [← he, List.take_append_drop]
    have hretake : ∀ a ∈ es.take 9, retryable a = true := fun a ha =>
      hre a (by rw [hsplit]; exact List.mem_append_left _ ha)
    have hree : retryable e = true :=
      hre e (by rw [hsplit]; exact List.mem_append_right _ (by simp))
    have hlen9 : (es.take 9).length = 9 := by
      rw [List.length_take, hlen]; decide
    have h1 : initLoop opts (es ++ rest) 0 [] =
        some ⟨none, 10, (List.range 9).map (fun i => waitMs (1 + i)), true, false⟩ := by
      conv_lhs => rw [hsplit]
      rw [List.append_assoc, List.singleton_append,
        initLoop_retry_steps opts (es.take 9) (e :: rest) 0 []
          hretake (by rw [hlen9]; decide),
        hlen9]
      rw [initLoop_step_exhaust opts e rest (0 + 9) _ hree (by decide)]
      simp
    refine ⟨h1, ?_⟩
    simp [openTunnel, h1]

/-- Witness for C3: nine network errors followed by a 200 assignment on the
tenth attempt, and ten network errors, from a fresh session. -/
theorem C3_handshake_backoff_witness :
    ((List.replicate 9 Attempt.networkError).length = 9
     ∧ ∀ a ∈ List.replicate 9 Attempt.networkError, retryable a = true)
    ∧ (initLoop optsA (List.replicate 9 Attempt.networkError
          ++ Attempt.response 200 bodyA :: []) 0 [] =
         some ⟨some (getInfo optsA bodyA), 9,
               (List.range 9).map (fun i => waitMs (1 + i)), false, false⟩
       ∧ openTunnel optsA (List.replicate 9 Attempt.networkError
            ++ Attempt.response 200 bodyA :: []) freshSession =
           some { freshSession with
                    clientId := some bodyA.id, url := some bodyA.url,
                    cachedUrl := if jsTruthyStr bodyA.cached_url then bodyA.cached_url
                                 else freshSession.cachedUrl,
                    poolInfo := some (getInfo optsA bodyA),
                    poolOpens := establishOpens (getInfo optsA bodyA),
                    closed := false }) :=
  ⟨⟨by decide, by decide⟩,
   (C3_handshake_backoff optsA).1 (List.replicate 9 Attempt.networkError) bodyA []
     freshSession (by decide) (by decide)⟩

/-- Claim C5: when every local dial failure in a run has code ECONNREFUSED or
ECONNRESET and the dial then succeeds, each failure schedules a retry after a
fixed 1000 ms delay, the relay socket is never ended, no new relay socket is
dialed (`remoteConnectCount` is unchanged — the same relay socket is kept
throughout), no `dead` is emitted, and the connection ends up relaying the
selected stream into the local socket. -/
theorem C5_local_dial_retry_keeps_relay (o : TunnelClusterOptions)
    (codes : List String) (rest : List LocalOutcome) (st : ConnState)
    (hc : ∀ c ∈ codes, c = "ECONNREFUSED" ∨ c = "ECONNRESET")
    (hd : st.remoteDestroyed = false) :
    connLocal o (codes.map LocalOutcome.fail ++ LocalOutcome.connect :: rest) st =
      { st with remotePaused := false, closeListenerActive := true,
                retryDelays := st.retryDelays ++ List.replicate codes.length 1000,
                relaying := some (streamForLocal o) } := by
  induction codes generalizing st with
  | nil => simp [connLocal_connect o rest st hd]
  | cons c cs ih =>
    have hcc : c = "ECONNREFUSED" ∨ c = "ECONNRESET" := hc c (by simp)
    have hcs : ∀ x ∈ cs, x = "ECONNREFUSED" ∨ x = "ECONNRESET" :=
      fun x hx => hc x (by simp [hx])
    rw [List.map_cons, List.cons_append,
      connLocal_retry o c (cs.map LocalOutcome.fail ++ LocalOutcome.connect :: rest) st hd hcc,
      ih { st with remotePaused := true, closeListenerActive := false,
                   retryDelays := st.retryDelays ++ [1000] } hcs hd]
    simp [List.replicate_succ, List.append_assoc]

/-- Witness for C5: three ECONNREFUSED failures and then a successful dial,
starting from a fresh pooled connection. -/
theorem C5_local_dial_retry_keeps_relay_witness :
    (∀ c ∈ ["ECONNREFUSED", "ECONNREFUSED", "ECONNREFUSED"],
        c = "ECONNREFUSED" ∨ c = "ECONNRESET")
    ∧ connLocal clusterOptsA
        ((["ECONNREFUSED", "ECONNREFUSED", "ECONNREFUSED"]).map LocalOutcome.fail
          ++ LocalOutcome.connect :: []) freshConn =
      { freshConn with remotePaused := false, closeListenerActive := true,
                       retryDelays := freshConn.retryDelays ++ List.replicate 3 1000,
                       relaying := some (streamForLocal clusterOptsA) } :=
  ⟨by decide,
   C5_local_dial_retry_keeps_relay clusterOptsA
     ["ECONNREFUSED", "ECONNREFUSED", "ECONNREFUSED"] [] freshConn
     (by decide) rfl⟩

/-- Claim C6, counterexample: a local dial that fails with code EPIPE (neither
ECONNREFUSED nor ECONNRESET) ends the relay socket, but the `remoteClose`
listener was removed before `remote.end()`, so even when the relay socket's
`close` event later fires, no `dead` notification is ever emitted for this
connection — contradicting the claim that the connection reaches Dead with a
`dead` event (and hence that the pool replaces it, since replacement happens
only in the `dead` handler). -/
theorem C6_counterexample :
    (onRemoteClose (connLocal clusterOptsA [LocalOutcome.fail "EPIPE"] freshConn)).remoteEnded
      = true
    ∧ (onRemoteClose (connLocal clusterOptsA [LocalOutcome.fail "EPIPE"] freshConn)).deadEmitted
        = false := by
  decide

/-- Claim C6, amended: on a local dial/socket error whose code is neither
ECONNREFUSED nor ECONNRESET, the relay connection is ended — but the
remote-close listener is removed first, so no `dead` notification is emitted
for this path (even once the relay socket's `close` fires), and consequently
the pool's `dead` handler never runs to open a replacement. -/
theorem C6_local_fatal_no_dead (o : TunnelClusterOptions) (code : String)
    (rest : List LocalOutcome) (st : ConnState)
    (h1 : code ≠ "ECONNREFUSED") (h2 : code ≠ "ECONNRESET")
    (hd : st.remoteDestroyed = false) :
    (connLocal o (LocalOutcome.fail code :: rest) st).remoteEnded = true
    ∧ (connLocal o (LocalOutcome.fail code :: rest) st).closeListenerActive = false
    ∧ (connLocal o (LocalOutcome.fail code :: rest) st).deadEmitted = st.deadEmitted
    ∧ onRemoteClose (connLocal o (LocalOutcome.fail code :: rest) st)
        = connLocal o (LocalOutcome.fail code :: rest) st := by
  rw [connLocal_fatal o code rest st hd h1 h2]
  simp [onRemoteClose]

/-- Witness for the amended C6 theorem at code EPIPE on a fresh connection. -/
theorem C6_local_fatal_no_dead_witness :
    ("EPIPE" ≠ "ECONNREFUSED" ∧ "EPIPE" ≠ "ECONNRESET")
    ∧ ((connLocal clusterOptsA [LocalOutcome.fail "EPIPE"] freshConn).remoteEnded = true
       ∧ (connLocal clusterOptsA [LocalOutcome.fail "EPIPE"] freshConn).closeListenerActive
           = false
       ∧ (connLocal clusterOptsA [LocalOutcome.fail "EPIPE"] freshConn).deadEmitted
           = freshConn.deadEmitted
       ∧ onRemoteClose (connLocal clusterOptsA [LocalOutcome.fail "EPIPE"] freshConn)
           = connLocal clusterOptsA [LocalOutcome.fail "EPIPE"] freshConn) :=
  ⟨by decide,
   C6_local_fatal_no_dead clusterOptsA "EPIPE" [] freshConn (by decide) (by decide) rfl⟩

/-- Claim C4: for an input split into chunks such that the first
CRLF-preceded Host header lies intact within one chunk (no match occurs in any
earlier chunk or earlier in that chunk, and the header's value is terminated
inside the chunk — or the stream ends with it), the Host Rewriter configured
for `host` outputs the input with exactly that header value replaced by `host`:
earlier chunks pass through unchanged, the matched chunk is rewritten once, and
every later chunk passes through byte-for-byte (the flag flips to replaced).
The joined output equals the joined input except for the one substituted
value. -/
theorem C4_host_rewriter_single_replacement
    (host p rest cap v tl : List Char) (pre post : List (List Char))
    (hpre : ∀ c ∈ pre, hasMatch c = false)
    (hm : matchAt rest = some (cap, v, tl))
    (hfirst : ∀ j, j < p.length → matchAt ((p ++ rest).drop j) = none)
    (_hintact : tl ≠ [] ∨ post.flatten = []) :
    transformAll ⟨host, false⟩ (pre ++ (p ++ rest) :: post)
      = pre ++ (p ++ (cap ++ host ++ tl)) :: post
    ∧ (pre ++ (p ++ rest) :: post).flatten
        = pre.flatten ++ (p ++ (cap ++ v ++ tl)) ++ post.flatten
    ∧ (transformAll ⟨host, false⟩ (pre ++ (p ++ rest) :: post)).flatten
        = pre.flatten ++ (p ++ (cap ++ host ++ tl)) ++ post.flatten := by
  have hchunk : transformChunk ⟨host, false⟩ (p ++ rest)
      = (p ++ (cap ++ host ++ tl), ⟨host, true⟩) := by
    simp [transformChunk, replaceScan_found host p rest cap v tl hm hfirst]
  have h1 : transformAll ⟨host, false⟩ (pre ++ (p ++ rest) :: post)
      = pre ++ (p ++ (cap ++ host ++ tl)) :: post := by
    rw [transformAll_clean host pre _ hpre]
    simp [transformAll, hchunk, transformAll_replaced ⟨host, true⟩ rfl post]
  have hdec := matchAt_decomp rest cap v tl hm
  refine ⟨h1, ?_, ?_⟩
  · rw [hdec]
    simp [List.flatten_append, List.flatten_cons, List.append_assoc]
  · rw [h1]
    simp [List.flatten_append, List.flatten_cons, List.append_assoc]

/-- Witness for C4: the stream
`"GET / HTTP/1.1" · "q\r\nHost: old.example\r\nY: 2" · "tail data"` through the
transform configured for host `newhost`. -/
theorem C4_host_rewriter_single_replacement_witness :
    (matchAt ("\r\nHost: old.example\r\nY: 2").data
        = some (("\r\nHost: ").data, ("old.example").data, ("\r\nY: 2").data)
     ∧ (∀ c ∈ [("GET / HTTP/1.1").data], hasMatch c = false)
     ∧ (∀ j, j < ("q").data.length →
          matchAt ((("q").data ++ ("\r\nHost: old.example\r\nY: 2").data).drop j) = none)
     ∧ (("\r\nY: 2").data ≠ [] ∨ ([("tail data").data] : List (List Char)).flatten = []))
    ∧ transformAll ⟨("newhost").data, false⟩
        ([("GET / HTTP/1.1").data]
          ++ (("q").data ++ ("\r\nHost: old.example\r\nY: 2").data)
            :: [("tail data").data])
      = [("GET / HTTP/1.1").data]
          ++ (("q").data ++ (("\r\nHost: ").data ++ ("newhost").data ++ ("\r\nY: 2").data))
            :: [("tail data").data] :=
  ⟨⟨by decide, by decide, by decide, by decide⟩,
   (C4_host_rewriter_single_replacement ("newhost").data ("q").data
      ("\r\nHost: old.example\r\nY: 2").data ("\r\nHost: ").data ("old.example").data
      ("\r\nY: 2").data [("GET / HTTP/1.1").data] [("tail data").data]
      (by decide) (by decide) (by decide) (by decide)).1⟩

/-- Claim C9: the stream spliced into the local socket is the raw relay stream
exactly when neither `local_hostname` nor `local_host` is configured (the
effective override `opt.local_hostname || opt.local_host` is falsy); when the
override is truthy the relay stream is wrapped in a `HeaderHostTransformer`
initialized with that override and a clear replaced flag, `connLocal` splices
exactly that selection on local connect, and the override value is what the
transformer substitutes for the matched Host header value. -/
theorem C9_stream_choice (o : TunnelClusterOptions) :
    (streamForLocal o = StreamChoice.raw ↔
       (jsTruthyStr o.local_hostname = false ∧ jsTruthyStr o.local_host = false))
    ∧ (∀ h : String, jsOrStr o.local_hostname o.local_host = some h →
        jsTruthyStr (some h) = true →
        streamForLocal o = StreamChoice.transformed ⟨h.data, false⟩)
    ∧ (∀ (st : ConnState) (rest : List LocalOutcome), st.remoteDestroyed = false →
        (connLocal o (LocalOutcome.connect :: rest) st).relaying
          = some (streamForLocal o))
    ∧ (∀ (h : String) (rest cap v tl : List Char), matchAt rest = some (cap, v, tl) →
        (transformChunk ⟨h.data, false⟩ rest).1 = cap ++ h.data ++ tl) := by
  refine ⟨?_, ?_, ?_, ?_⟩
  · cases ha : jsTruthyStr o.local_hostname <;> cases hb : jsTruthyStr o.local_host <;>
      simp [streamForLocal, jsOrStr, ha, hb]
  · intro h heq htr
    simp [streamForLocal, heq, htr, mkHeaderHostTransformer]
  · intro st rest hd
    rw [connLocal_connect o rest st hd]
  · intro h rest cap v tl hm
    have hfound := replaceScan_found h.data [] rest cap v tl hm
      (fun j hj => by simp at hj)
    simp only [List.nil_append] at hfound
    simp [transformChunk, hfound]

/-- Witness for C9: the cluster options with hostname override
`target.internal`, and a concrete matched chunk. -/
theorem C9_stream_choice_witness :
    (jsOrStr clusterOptsA.local_hostname clusterOptsA.local_host
        = some "target.internal"
     ∧ jsTruthyStr (some "target.internal") = true)
    ∧ streamForLocal clusterOptsA
        = StreamChoice.transformed ⟨("target.internal").data, false⟩ :=
  ⟨⟨by decide, by decide⟩,
   (C9_stream_choice clusterOptsA).2.1 "target.internal" (by decide) (by decide)⟩

end Localtunnel
